import Mathlib

/-!
Verification of the MedGuardian request-processing pipeline (`main.py`).

The pipeline is a single FastAPI endpoint: validate a patient payload,
gather drug information (one search per medication), produce a narrative
risk analysis (LLM call, or a deterministic rule-based mock), classify the
narrative into a binary risk label by keyword search, and assemble the
response.  The embedding below translates each function of `main.py` into a
pure Lean function; the two outbound HTTP collaborators (Tavily search,
Groq chat completion) are modelled by outcome oracles carried in an `Env`,
and every outbound call the live code would make is recorded in an explicit
`NetCall` trace, so that "no network call happens in mock mode" and "calls
are issued sequentially in medication order" are provable statements.
-/

namespace MedGuardian

/-- A drug-information search result: `title`, `content`, `url`
(`DrugInfoResult` in the spec; the dicts produced at `main.py` lines 50-54
and consumed from the Tavily `results` array). -/
structure DrugInfo where
  title : String
  content : String
  url : String
deriving DecidableEq

/-- The validated request body (`PatientData`, `main.py` lines 30-35).
`age` is a Python `int`, modelled as `Int`; `vitals` is
`Optional[Dict[str, float]]`, modelled as an optional association list.
The numeric vitals values are only ever stored and echoed into a prompt,
never computed with, so they are modelled as `Int` (the example payloads
use integral values only). -/
structure PatientData where
  patient_id : String
  age : Int
  medications : List String
  allergies : List String
  vitals : Option (List (String × Int))
deriving DecidableEq

/-- `mock_drug_info` (`main.py` lines 48-54): one fabricated result per
medication, no network. -/
def mock_drug_info (drug_name : String) : List DrugInfo :=
  [{ title := "Information about " ++ drug_name,
     content := "Common interactions for " ++ drug_name ++ " include drowsiness and dizziness.",
     url := "https://example.com/drugs" }]

/-- Python `sep.join(xs)`: empty for `[]`, otherwise the elements
interspersed with `sep`. -/
def pyJoin (sep : String) : List String → String
  | [] => ""
  | [x] => x
  | x :: rest => x ++ sep ++ pyJoin sep rest

/-- `mock_risk_analysis` (`main.py` lines 56-68): deterministic rule-based
narrative.  The three appends mirror the three `risks.append` statements,
in source order; `if patient_data.allergies` is Python truthiness, i.e.
non-emptiness, and `if risks` likewise. -/
def mock_risk_analysis (patient_data : PatientData) : String :=
  let risks : List String :=
    (if patient_data.age > 65 then ["Elderly patient - increased risk"] else []) ++
    (if patient_data.medications.length > 2 then
      ["Multiple medications - potential interactions"] else []) ++
    (if patient_data.allergies ≠ [] then
      ["Known allergies: " ++ pyJoin ", " patient_data.allergies] else [])
  if risks ≠ [] then "HIGH RISK: " ++ pyJoin "; " risks
  else "LOW RISK: No significant risk factors identified"

/-- Outcome of one live Tavily search call for one medication.  `success`
carries the `results` array of the JSON body (`.get("results", [])`, so a
missing key is `success []`); `failure` covers every path caught by the
`except` at `main.py` lines 88-90: timeout, non-2xx (`raise_for_status`),
or any other exception. -/
inductive SearchOutcome where
  | success (results : List DrugInfo)
  | failure
deriving DecidableEq

/-- Outcome of one live Groq chat-completion call.  `success` carries
`choices[0].message.content`; `failure` covers every path caught by the
`except` at `main.py` lines 136-138 (timeout, non-2xx, any exception). -/
inductive GroqOutcome where
  | success (content : String)
  | failure
deriving DecidableEq

/-- One outbound HTTP call the live code makes, recorded in order. -/
inductive NetCall where
  | tavilySearch (query : String)
  | groqChat (prompt : String)
deriving DecidableEq

/-- Process-wide environment: credentials read once at startup
(`main.py` lines 11-13), oracles giving the outcome each outbound call
would have, and the wall-clock reading used for the response timestamp. -/
structure Env where
  groq_api_key : Option String
  tavily_api_key : Option String
  searchOutcome : String → SearchOutcome
  groqOutcome : String → GroqOutcome
  timestamp : String

/-- Python falsiness of an optional env string: `not KEY` is true when the
variable is unset (`None`) or empty. -/
def keyMissing : Option String → Bool
  | none => true
  | some s => s = ""

/-- `MOCK_MODE` (`main.py` lines 16-21): set at startup, true iff either
credential is missing. -/
def Env.mockMode (env : Env) : Bool :=
  keyMissing env.groq_api_key || keyMissing env.tavily_api_key

/-- `search_drug_info` (`main.py` lines 70-90).  Returns the drug-info list
together with the trace of outbound calls made.  In mock mode the mock
result is returned with no call; in live mode one search call is made with
the templated query, a success keeps at most the first two results
(`[:2]`), and any failure is swallowed into `[]` (lines 88-90). -/
def search_drug_info (env : Env) (drug_name : String) : List DrugInfo × List NetCall :=
  if env.mockMode then (mock_drug_info drug_name, [])
  else
    let query := drug_name ++ " drug interactions medical"
    match env.searchOutcome drug_name with
    | .success results => (results.take 2, [NetCall.tavilySearch query])
    | .failure => ([], [NetCall.tavilySearch query])

/-- Rendering of one vitals entry as Python renders a dict item,
`\x27SpO2\x27: 98`. -/
def reprVitalsPair (kv : String × Int) : String :=
  "\x27" ++ kv.1 ++ "\x27: " ++ toString kv.2

/-- Rendering of the `vitals` field inside the f-string prompt
(`{patient_data.vitals}` at `main.py` line 107): `None` or a dict
rendering.  (Python would render float values with a trailing `.0`; the
values are modelled integrally, see `PatientData`.) -/
def reprVitals : Option (List (String × Int)) → String
  | none => "None"
  | some kvs => "\x7b" ++ pyJoin ", " (kvs.map reprVitalsPair) ++ "\x7d"

/-- Rendering of one drug-info dict inside the prompt (`{drug_info}` at
`main.py` line 110); Python quote-escaping subtleties are not modelled. -/
def reprDrugInfo (d : DrugInfo) : String :=
  "\x7b\x27title\x27: \x27" ++ d.title ++ "\x27, \x27content\x27: \x27" ++ d.content ++
    "\x27, \x27url\x27: \x27" ++ d.url ++ "\x27\x7d"

/-- Rendering of the drug-info list inside the prompt. -/
def reprDrugInfoList (l : List DrugInfo) : String :=
  "[" ++ pyJoin ", " (l.map reprDrugInfo) ++ "]"

/-- The prompt f-string of `analyze_risks_with_groq`
(`main.py` lines 102-117). -/
def build_prompt (patient_data : PatientData) (drug_info : List DrugInfo) : String :=
  "\n    Analyze potential risks for patient " ++ patient_data.patient_id ++
  ":\n    - Age: " ++ toString patient_data.age ++
  "\n    - Current Medications: " ++ pyJoin ", " patient_data.medications ++
  "\n    - Known Allergies: " ++
    (if patient_data.allergies ≠ [] then pyJoin ", " patient_data.allergies else "None") ++
  "\n    - Current Vitals: " ++ reprVitals patient_data.vitals ++
  "\n    \n    Drug Information:\n    " ++ reprDrugInfoList drug_info ++
  "\n    \n    Provide a concise risk assessment focusing on:" ++
  "\n    1. Potential drug interactions\n    2. Age-related risks" ++
  "\n    3. Allergy concerns\n    4. Vital sign implications\n    "

/-- `analyze_risks_with_groq` (`main.py` lines 92-138).  Returns the
narrative together with the trace of outbound calls.  Mock mode returns the
rule-based narrative with no call; live mode makes one chat-completion call
with the built prompt, and any failure is swallowed into the fixed fallback
sentence (lines 136-138). -/
def analyze_risks_with_groq (env : Env) (patient_data : PatientData)
    (drug_info : List DrugInfo) : String × List NetCall :=
  if env.mockMode then (mock_risk_analysis patient_data, [])
  else
    let prompt := build_prompt patient_data drug_info
    match env.groqOutcome prompt with
    | .success content => (content, [NetCall.groqChat prompt])
    | .failure => ("Unable to perform risk analysis", [NetCall.groqChat prompt])

/-- `term.isPrefixOf hay` at every suffix of `hay`: the Python substring test
`term in hay` on character lists. -/
def strContainsAux (needle : List Char) : List Char → Bool
  | [] => needle.isPrefixOf []
  | c :: t => needle.isPrefixOf (c :: t) || strContainsAux needle t

/-- Python `term in s` for strings. -/
def pyIn (term s : String) : Bool :=
  strContainsAux term.data s.data

/-- Python `s.lower()`.  `Char.toLower` lower-cases ASCII letters; the
keyword matching in this program only involves ASCII text. -/
def pyLower (s : String) : String :=
  String.mk (s.data.map Char.toLower)

/-- The keyword list of `get_risk_level` (`main.py` line 142). -/
def high_risk_terms : List String :=
  ["high risk", "severe", "dangerous", "critical", "emergency"]

/-- `get_risk_level` (`main.py` lines 140-143): pure keyword classifier on
the narrative text. -/
def get_risk_level (analysis : String) : String :=
  if high_risk_terms.any (fun term => pyIn term (pyLower analysis)) then "HIGH RISK"
  else "LOW RISK"

/-- The placeholder vitals substituted when the request omits them
(`main.py` line 151). -/
def placeholder_vitals : List (String × Int) :=
  [("SpO2", 98), ("heart_rate", 72)]

/-- The drug-information gathering loop of `process_patient_data`
(`main.py` lines 154-158): one awaited search per medication, in list
order; a non-empty result extends the accumulator (`if info:
drug_info.extend(info)`).  Returns the accumulated list and the ordered
trace of outbound calls. -/
def gather_drug_info (env : Env) : List String → List DrugInfo × List NetCall
  | [] => ([], [])
  | medication :: rest =>
    let this_med := search_drug_info env medication
    let remaining := gather_drug_info env rest
    ((if this_med.1 ≠ [] then this_med.1 else []) ++ remaining.1,
     this_med.2 ++ remaining.2)

/-- The JSON body returned by the endpoint (`main.py` lines 164-171).
`timestamp` is `datetime.datetime.now().isoformat()`, modelled by the
clock reading carried in `Env`. -/
structure Response where
  patient_id : String
  risk_level : String
  risk_analysis : String
  analyzed_medications : Nat
  timestamp : String
  mode : String
deriving DecidableEq

/-- Result of one run of the endpoint body: the response, plus the
intermediate state the claims talk about — the patient record after the
vitals substitution, the drug-info sequence handed to the narrator, and
the ordered trace of outbound calls. -/
structure ProcessResult where
  response : Response
  patientFinal : PatientData
  narratorInput : List DrugInfo
  netCalls : List NetCall
deriving DecidableEq

/-- Body of `process_patient_data` (`main.py` lines 145-171): substitute
placeholder vitals when absent (lines 150-151), gather drug information
(lines 154-158), narrate (line 161), classify (line 162), assemble the
response dict (lines 164-171). -/
def process_patient_data (env : Env) (patient_data : PatientData) : ProcessResult :=
  let pd :=
    if patient_data.vitals = none then { patient_data with vitals := some placeholder_vitals }
    else patient_data
  let gathered := gather_drug_info env pd.medications
  let analyzed := analyze_risks_with_groq env pd gathered.1
  let risk_level := get_risk_level analyzed.1
  { response :=
      { patient_id := pd.patient_id,
        risk_level := risk_level,
        risk_analysis := analyzed.1,
        analyzed_medications := pd.medications.length,
        timestamp := env.timestamp,
        mode := if env.mockMode then "MOCK" else "LIVE" },
    patientFinal := pd,
    narratorInput := gathered.1,
    netCalls := gathered.2 ++ analyzed.2 }

/-- The endpoint handler with its outer `try`/`except`
(`main.py` lines 146-173): an uncaught exception would become an
`HTTPException` (the `.error` case).  The translated body is total — every
collaborator failure is already absorbed inside `search_drug_info` and
`analyze_risks_with_groq` — so the handler always returns `.ok`. -/
def process_endpoint (env : Env) (patient_data : PatientData) : Except String Response :=
  Except.ok (process_patient_data env patient_data).response

/-! ## Spec-side definitions

These follow the wording of the spec, to be compared with the definitions
translated from the source. -/

/-- The rule-based flag list as the spec words it: elderly (age strictly
greater than 65), more than two medications, non-empty allergy list, in
that fixed order. -/
def spec_flags (p : PatientData) : List String :=
  (if p.age > 65 then ["Elderly patient - increased risk"] else []) ++
  (if p.medications.length > 2 then ["Multiple medications - potential interactions"] else []) ++
  (if p.allergies ≠ [] then ["Known allergies: " ++ pyJoin ", " p.allergies] else [])

/-- The per-medication drug-info contribution in live mode, as the spec
words it: at most the first two results on success, empty on any
failure. -/
def live_search_result (env : Env) (m : String) : List DrugInfo :=
  match env.searchOutcome m with
  | .success results => results.take 2
  | .failure => []

/-- A fixed mock-mode environment: no credentials configured.  The oracles
are irrelevant in mock mode; they are set to always-fail to make that
visible. -/
def mockEnv : Env :=
  { groq_api_key := none,
    tavily_api_key := none,
    searchOutcome := fun _ => SearchOutcome.failure,
    groqOutcome := fun _ => GroqOutcome.failure,
    timestamp := "2026-01-01T00:00:00" }

/-- A live-mode environment (both credentials present) in which the search
for `"aspirin"` fails and every other search succeeds with three results
named after the medication. -/
def envLiveFail : Env :=
  { groq_api_key := some "groq-key",
    tavily_api_key := some "tavily-key",
    searchOutcome := fun m =>
      if m = "aspirin" then SearchOutcome.failure
      else SearchOutcome.success
        [{ title := "r1-" ++ m, content := "c", url := "u" },
         { title := "r2-" ++ m, content := "c", url := "u" },
         { title := "r3-" ++ m, content := "c", url := "u" }],
    groqOutcome := fun _ => GroqOutcome.success "Assessment text",
    timestamp := "2026-01-01T00:00:00" }

/-- A live-mode environment in which every generation call fails. -/
def envGroqFail : Env :=
  { groq_api_key := some "groq-key",
    tavily_api_key := some "tavily-key",
    searchOutcome := fun _ => SearchOutcome.success [],
    groqOutcome := fun _ => GroqOutcome.failure,
    timestamp := "2026-01-01T00:00:00" }

/-- A concrete request with three medications. -/
def patientThreeMeds : PatientData :=
  { patient_id := "MH-777", age := 50,
    medications := ["ibuprofen", "aspirin", "lisinopril"],
    allergies := [], vitals := some [("SpO2", 97)] }

/-! ## Helper lemmas -/

/-- The executable substring test agrees with the mathematical infix
relation on character lists. -/
theorem strContainsAux_iff (needle hay : List Char) :
    strContainsAux needle hay = true ↔ needle <:+: hay := by
  induction hay with
  | nil => simp [strContainsAux, List.isPrefixOf_iff_prefix]
  | cons c t ih =>
    simp [strContainsAux, List.isPrefixOf_iff_prefix, ih, List.infix_cons_iff]

/-- Python `term in s` agrees with the infix relation on the underlying
character lists. -/
theorem pyIn_iff (term s : String) :
    pyIn term s = true ↔ term.data <:+: s.data :=
  strContainsAux_iff term.data s.data

/-- Lower-casing distributes over string concatenation, at the level of
character lists. -/
theorem pyLower_data_append (a b : String) :
    (pyLower (a ++ b)).data = (pyLower a).data ++ (pyLower b).data := by
  simp [pyLower, String.data_append]

/-- Any narrative starting with the mock high-risk prefix is classified
`"HIGH RISK"`: the lower-cased prefix contains the keyword
`"high risk"`. -/
theorem get_risk_level_high_prefixed (rest : String) :
    get_risk_level ("HIGH RISK: " ++ rest) = "HIGH RISK" := by
  have hinfix : ("high risk".data : List Char) <:+: (pyLower ("HIGH RISK: " ++ rest)).data := by
    refine ⟨[], ": ".data ++ (pyLower rest).data, ?_⟩
    rw [pyLower_data_append]
    have h1 : (pyLower "HIGH RISK: ").data = "high risk: ".data := by decide
    have h2 : ("high risk: ".data : List Char) = "high risk".data ++ ": ".data := by decide
    rw [h1, h2]
    simp
  have hany :
      (high_risk_terms.any fun term => pyIn term (pyLower ("HIGH RISK: " ++ rest))) = true := by
    rw [List.any_eq_true]
    exact ⟨"high risk", by decide, (pyIn_iff _ _).mpr hinfix⟩
  simp [get_risk_level, hany]

/-- The fixed mock low-risk sentence contains no classifier keyword, so it
is classified `"LOW RISK"`. -/
theorem get_risk_level_low_sentence :
    get_risk_level "LOW RISK: No significant risk factors identified" = "LOW RISK" := by
  decide

/-- The `let risks` of `mock_risk_analysis` is exactly the flag list of the spec; see the spec-side
list. -/
theorem mock_risk_analysis_eq_spec (p : PatientData) :
    mock_risk_analysis p =
      if spec_flags p ≠ [] then "HIGH RISK: " ++ pyJoin "; " (spec_flags p)
      else "LOW RISK: No significant risk factors identified" := rfl

/-- The spec flag list is non-empty exactly when one of the three rules
fires. -/
theorem spec_flags_ne_nil_iff (p : PatientData) :
    spec_flags p ≠ [] ↔ (p.age > 65 ∨ p.medications.length > 2 ∨ p.allergies ≠ []) := by
  unfold spec_flags
  split_ifs <;> simp_all

/-- In mock mode the gather loop returns one mock result per medication,
in order, and makes no outbound call. -/
theorem gather_drug_info_mock (env : Env) (h : env.mockMode = true) (meds : List String) :
    gather_drug_info env meds = ((meds.map mock_drug_info).flatten, []) := by
  induction meds with
  | nil => rfl
  | cons m rest ih =>
    simp [gather_drug_info, search_drug_info, h, ih, mock_drug_info]

/-- In live mode the gather loop returns the concatenation, in medication
order, of the (at most two) results of each medication, and its call trace is
one search per medication, in medication order. -/
theorem gather_drug_info_live (env : Env) (h : env.mockMode = false) (meds : List String) :
    gather_drug_info env meds =
      ((meds.map (live_search_result env)).flatten,
       meds.map fun m => NetCall.tavilySearch (m ++ " drug interactions medical")) := by
  induction meds with
  | nil => rfl
  | cons m rest ih =>
    have hsearch : search_drug_info env m =
        (live_search_result env m,
         [NetCall.tavilySearch (m ++ " drug interactions medical")]) := by
      unfold search_drug_info live_search_result
      rw [h]
      simp
      cases env.searchOutcome m <;> rfl
    have hif : (if live_search_result env m ≠ [] then live_search_result env m else []) =
        live_search_result env m := by
      split_ifs with hne
      · rfl
      · simp_all
    simp [gather_drug_info, hsearch, ih, hif]

/-- Classifying the mock narrative gives `"HIGH RISK"` exactly when one of
the three mock rules fires. -/
theorem get_risk_level_mock (q : PatientData) :
    get_risk_level (mock_risk_analysis q) =
      if q.age > 65 ∨ q.medications.length > 2 ∨ q.allergies ≠ [] then "HIGH RISK"
      else "LOW RISK" := by
  rw [mock_risk_analysis_eq_spec]
  by_cases hf : spec_flags q ≠ []
  · rw [if_pos hf, get_risk_level_high_prefixed, if_pos ((spec_flags_ne_nil_iff q).mp hf)]
  · rw [if_neg hf, get_risk_level_low_sentence,
      if_neg (fun hc => hf ((spec_flags_ne_nil_iff q).mpr hc))]

/-- In live mode the narrator makes exactly one generation call, with the
built prompt, whatever the outcome. -/
theorem analyze_live_calls (env : Env) (p : PatientData) (di : List DrugInfo)
    (hmode : env.mockMode = false) :
    (analyze_risks_with_groq env p di).2 = [NetCall.groqChat (build_prompt p di)] := by
  simp only [analyze_risks_with_groq, hmode]
  cases h : env.groqOutcome (build_prompt p di) <;> simp [h]

/-- In mock mode the final risk label is determined by the three mock
rules applied to the incoming request. -/
theorem process_mock_risk_level (env : Env) (p : PatientData)
    (h : env.mockMode = true) :
    (process_patient_data env p).response.risk_level =
      if p.age > 65 ∨ p.medications.length > 2 ∨ p.allergies ≠ [] then "HIGH RISK"
      else "LOW RISK" := by
  have hanal : (process_patient_data env p).response.risk_level =
      get_risk_level (mock_risk_analysis (process_patient_data env p).patientFinal) := by
    simp only [process_patient_data]
    split_ifs <;> simp [analyze_risks_with_groq, h]
  rw [hanal, get_risk_level_mock]
  have hage : (process_patient_data env p).patientFinal.age = p.age := by
    simp only [process_patient_data]
    split_ifs <;> rfl
  have hmeds : (process_patient_data env p).patientFinal.medications = p.medications := by
    simp only [process_patient_data]
    split_ifs <;> rfl
  have hall : (process_patient_data env p).patientFinal.allergies = p.allergies := by
    simp only [process_patient_data]
    split_ifs <;> rfl
  rw [hage, hmeds, hall]

/-! ## Claims -/

/-- C1: for every string `s`, the risk classifier returns `"HIGH RISK"` if
the lower-cased `s` contains any of the five keywords, and `"LOW RISK"` if
it contains none of them.  (That the label depends only on the text is
visible in the type of `get_risk_level`: it consumes nothing but the
narrative string.) -/
theorem get_risk_level_keyword_characterization (s : String) :
    ((∃ term ∈ high_risk_terms, term.data <:+: (pyLower s).data) →
      get_risk_level s = "HIGH RISK") ∧
    ((∀ term ∈ high_risk_terms, ¬ term.data <:+: (pyLower s).data) →
      get_risk_level s = "LOW RISK") := by
  constructor
  · rintro ⟨term, hmem, hinf⟩
    have hany : (high_risk_terms.any fun t => pyIn t (pyLower s)) = true :=
      List.any_eq_true.mpr ⟨term, hmem, (pyIn_iff _ _).mpr hinf⟩
    simp [get_risk_level, hany]
  · intro hall
    have hany : (high_risk_terms.any fun t => pyIn t (pyLower s)) = false := by
      rw [List.any_eq_false]
      intro t hmem hc
      exact hall t hmem ((pyIn_iff _ _).mp hc)
    simp [get_risk_level, hany]

/-- Witness for C1 at two concrete narratives. -/
theorem get_risk_level_keyword_characterization_witness :
    get_risk_level "Patient shows SEVERE symptoms" = "HIGH RISK" ∧
    get_risk_level "Patient is stable" = "LOW RISK" := by
  constructor
  · exact (get_risk_level_keyword_characterization "Patient shows SEVERE symptoms").1
      ⟨"severe", by decide, (pyIn_iff _ _).mp (by decide)⟩
  · refine (get_risk_level_keyword_characterization "Patient is stable").2 ?_
    intro t hm hinf
    have h1 : pyIn t (pyLower "Patient is stable") = true := (pyIn_iff _ _).mpr hinf
    have h2 : (high_risk_terms.any fun u => pyIn u (pyLower "Patient is stable")) = false := by
      decide
    rw [List.any_eq_false] at h2
    exact h2 t hm h1

/-- C2: the offline-mock narrative is rule-based and deterministic: the
three flags are collected in fixed order (elderly, multiple medications,
known allergies); if any fired the narrative is the fired flags joined,
prefixed `"HIGH RISK: "`, else it is exactly the fixed low-risk sentence.
In particular a patient aged 70 with 3 medications and 1 allergy gets all
three conditions listed in order, and a patient aged 30 with 1 medication
and no allergies gets exactly the low-risk sentence. -/
theorem mock_risk_analysis_rule_based (p : PatientData) :
    (spec_flags p ≠ [] →
      mock_risk_analysis p = "HIGH RISK: " ++ pyJoin "; " (spec_flags p)) ∧
    (spec_flags p = [] →
      mock_risk_analysis p = "LOW RISK: No significant risk factors identified") ∧
    mock_risk_analysis
        { patient_id := "P-70", age := 70,
          medications := ["warfarin", "aspirin", "metformin"],
          allergies := ["penicillin"], vitals := none } =
      "HIGH RISK: Elderly patient - increased risk; Multiple medications - potential interactions; Known allergies: penicillin" ∧
    mock_risk_analysis
        { patient_id := "P-30", age := 30, medications := ["ibuprofen"],
          allergies := [], vitals := none } =
      "LOW RISK: No significant risk factors identified" := by
  refine ⟨?_, ?_, by decide, by decide⟩
  · intro hne
    rw [mock_risk_analysis_eq_spec, if_pos hne]
  · intro he
    rw [mock_risk_analysis_eq_spec, if_neg (fun hn => hn he)]

/-- Witness for C2 at a concrete patient on each side of the rule. -/
theorem mock_risk_analysis_rule_based_witness :
    mock_risk_analysis
        { patient_id := "P-70", age := 70,
          medications := ["warfarin", "aspirin", "metformin"],
          allergies := ["penicillin"], vitals := none } =
      "HIGH RISK: " ++ pyJoin "; "
        (spec_flags
          { patient_id := "P-70", age := 70,
            medications := ["warfarin", "aspirin", "metformin"],
            allergies := ["penicillin"], vitals := none }) ∧
    mock_risk_analysis
        { patient_id := "P-30", age := 30, medications := ["ibuprofen"],
          allergies := [], vitals := none } =
      "LOW RISK: No significant risk factors identified" :=
  ⟨(mock_risk_analysis_rule_based _).1 (by decide),
   (mock_risk_analysis_rule_based
      { patient_id := "P-30", age := 30, medications := ["ibuprofen"],
        allergies := [], vitals := none }).2.1 (by decide)⟩

/-- C3: a failing search for one medication yields the empty result for
that medication only; the per-medication loop continues, the results of
the other medications appear in input order in the sequence passed to the
narrator, and the endpoint still returns a success response. -/
theorem search_failure_isolated (env : Env) (p : PatientData) (m : String)
    (hmode : env.mockMode = false)
    (hfail : env.searchOutcome m = SearchOutcome.failure) :
    live_search_result env m = [] ∧
    (process_patient_data env p).narratorInput =
      (p.medications.map (live_search_result env)).flatten ∧
    process_endpoint env p = Except.ok (process_patient_data env p).response := by
  refine ⟨?_, ?_, rfl⟩
  · unfold live_search_result
    rw [hfail]
  · simp only [process_patient_data]
    split_ifs with hv <;> simp [gather_drug_info_live env hmode]

/-- Witness for C3: three medications, the middle one failing; the other
the truncated results of the two other medications appear, in order. -/
theorem search_failure_isolated_witness :
    live_search_result envLiveFail "aspirin" = [] ∧
    (process_patient_data envLiveFail patientThreeMeds).narratorInput =
      [{ title := "r1-ibuprofen", content := "c", url := "u" },
       { title := "r2-ibuprofen", content := "c", url := "u" },
       { title := "r1-lisinopril", content := "c", url := "u" },
       { title := "r2-lisinopril", content := "c", url := "u" }] ∧
    process_endpoint envLiveFail patientThreeMeds =
      Except.ok (process_patient_data envLiveFail patientThreeMeds).response := by
  obtain ⟨h1, _, h3⟩ := search_failure_isolated envLiveFail patientThreeMeds "aspirin"
    (by decide) (by decide)
  exact ⟨h1, by decide, h3⟩

/-- C4: with either credential missing (mock mode), no outbound call is
ever made, the search step yields the deterministic mock drug-info
results, the analysis step yields the deterministic mock narrative, and
the mode field of the response is `"MOCK"`. -/
theorem mock_mode_no_network_calls (env : Env) (p : PatientData)
    (h : env.mockMode = true) :
    (process_patient_data env p).netCalls = [] ∧
    (process_patient_data env p).response.mode = "MOCK" ∧
    (process_patient_data env p).narratorInput =
      (p.medications.map mock_drug_info).flatten ∧
    (process_patient_data env p).response.risk_analysis =
      mock_risk_analysis (process_patient_data env p).patientFinal := by
  simp only [process_patient_data]
  split_ifs with hv <;>
    simp [gather_drug_info_mock env h, analyze_risks_with_groq, h]

/-- Witness for C4 at a concrete patient in the mock environment. -/
theorem mock_mode_no_network_calls_witness :
    (process_patient_data mockEnv
      { patient_id := "MH-004", age := 80, medications := ["a", "b"],
        allergies := ["nuts"], vitals := none }).netCalls = [] ∧
    (process_patient_data mockEnv
      { patient_id := "MH-004", age := 80, medications := ["a", "b"],
        allergies := ["nuts"], vitals := none }).response.mode = "MOCK" := by
  obtain ⟨h1, h2, _, _⟩ := mock_mode_no_network_calls mockEnv
    { patient_id := "MH-004", age := 80, medications := ["a", "b"],
      allergies := ["nuts"], vitals := none } (by decide)
  exact ⟨h1, h2⟩

/-- C5: in mock mode the final `risk_level` is `"HIGH RISK"` exactly when
one of the three mock rules fires on the request, and `"LOW RISK"`
otherwise: the keyword classifier always agrees with the rule-based
flags. -/
theorem mock_mode_risk_level_agrees_with_rules (env : Env) (p : PatientData)
    (h : env.mockMode = true) :
    (process_patient_data env p).response.risk_level =
      if p.age > 65 ∨ p.medications.length > 2 ∨ p.allergies ≠ [] then "HIGH RISK"
      else "LOW RISK" :=
  process_mock_risk_level env p h

/-- Witness for C5: one firing patient and the concrete label. -/
theorem mock_mode_risk_level_agrees_with_rules_witness :
    (process_patient_data mockEnv
      { patient_id := "MH-005", age := 70, medications := ["a"],
        allergies := [], vitals := none }).response.risk_level = "HIGH RISK" :=
  (mock_mode_risk_level_agrees_with_rules mockEnv
    { patient_id := "MH-005", age := 70, medications := ["a"],
      allergies := [], vitals := none } (by decide)).trans (by decide)

/-- C6: in live mode, if the generation call fails in any way the narrator
returns exactly the fixed fallback string, and the endpoint still returns
a success response carrying that string as the `risk_analysis` text. -/
theorem groq_failure_returns_fallback (env : Env) (p : PatientData)
    (hmode : env.mockMode = false)
    (hfail : ∀ prompt, env.groqOutcome prompt = GroqOutcome.failure) :
    (process_patient_data env p).response.risk_analysis =
      "Unable to perform risk analysis" ∧
    process_endpoint env p = Except.ok (process_patient_data env p).response := by
  refine ⟨?_, rfl⟩
  simp only [process_patient_data]
  split_ifs with hv <;> simp [analyze_risks_with_groq, hmode, hfail]

/-- Witness for C6 in a live environment whose generation calls all
fail. -/
theorem groq_failure_returns_fallback_witness :
    (process_patient_data envGroqFail patientThreeMeds).response.risk_analysis =
      "Unable to perform risk analysis" ∧
    process_endpoint envGroqFail patientThreeMeds =
      Except.ok (process_patient_data envGroqFail patientThreeMeds).response :=
  groq_failure_returns_fallback envGroqFail patientThreeMeds (by decide) (fun _ => rfl)

/-- C7: in live mode at most the first two results per medication are
kept, the drug-information sequence passed downstream is the concatenation
of the per-medication result lists in input order, and the outbound call
trace is one search per medication, in medication order, followed by the
single generation call (i.e. the searches are sequential and all precede
generation). -/
theorem live_search_take_two_ordered (env : Env) (p : PatientData)
    (hmode : env.mockMode = false) :
    (process_patient_data env p).narratorInput =
      (p.medications.map (live_search_result env)).flatten ∧
    (∀ m, (live_search_result env m).length ≤ 2) ∧
    (process_patient_data env p).netCalls =
      (p.medications.map fun m =>
        NetCall.tavilySearch (m ++ " drug interactions medical")) ++
      [NetCall.groqChat (build_prompt (process_patient_data env p).patientFinal
        (process_patient_data env p).narratorInput)] := by
  refine ⟨?_, ?_, ?_⟩
  · simp only [process_patient_data]
    split_ifs <;> simp [gather_drug_info_live env hmode]
  · intro m
    unfold live_search_result
    cases env.searchOutcome m with
    | success results => simp
    | failure => simp
  · simp only [process_patient_data]
    split_ifs <;>
      simp [gather_drug_info_live env hmode, analyze_live_calls env _ _ hmode]

/-- Witness for C7 in a concrete live environment. -/
theorem live_search_take_two_ordered_witness :
    (process_patient_data envLiveFail patientThreeMeds).narratorInput =
      (patientThreeMeds.medications.map (live_search_result envLiveFail)).flatten ∧
    (live_search_result envLiveFail "ibuprofen").length ≤ 2 ∧
    (live_search_result envLiveFail "ibuprofen").length = 2 := by
  obtain ⟨h1, h2, _⟩ := live_search_take_two_ordered envLiveFail patientThreeMeds (by decide)
  exact ⟨h1, h2 "ibuprofen", by decide⟩

/-- C8: end-to-end in offline mode, the example request (`MH-001`, age 25,
one medication, no allergies, vitals given) yields `risk_level =
"LOW RISK"`, `analyzed_medications = 1` and `mode = "MOCK"`. -/
theorem example_request_low_risk (env : Env) (h : env.mockMode = true) :
    (process_patient_data env
      { patient_id := "MH-001", age := 25, medications := ["ibuprofen"],
        allergies := [], vitals := some [("SpO2", 99), ("heart_rate", 70)]
      }).response.risk_level = "LOW RISK" ∧
    (process_patient_data env
      { patient_id := "MH-001", age := 25, medications := ["ibuprofen"],
        allergies := [], vitals := some [("SpO2", 99), ("heart_rate", 70)]
      }).response.analyzed_medications = 1 ∧
    (process_patient_data env
      { patient_id := "MH-001", age := 25, medications := ["ibuprofen"],
        allergies := [], vitals := some [("SpO2", 99), ("heart_rate", 70)]
      }).response.mode = "MOCK" := by
  refine ⟨?_, rfl, ?_⟩
  · rw [process_mock_risk_level env _ h]
    decide
  · simp [process_patient_data, h]

/-- Witness for C8 in the concrete mock environment. -/
theorem example_request_low_risk_witness :
    (process_patient_data mockEnv
      { patient_id := "MH-001", age := 25, medications := ["ibuprofen"],
        allergies := [], vitals := some [("SpO2", 99), ("heart_rate", 70)]
      }).response.risk_level = "LOW RISK" ∧
    (process_patient_data mockEnv
      { patient_id := "MH-001", age := 25, medications := ["ibuprofen"],
        allergies := [], vitals := some [("SpO2", 99), ("heart_rate", 70)]
      }).response.analyzed_medications = 1 ∧
    (process_patient_data mockEnv
      { patient_id := "MH-001", age := 25, medications := ["ibuprofen"],
        allergies := [], vitals := some [("SpO2", 99), ("heart_rate", 70)]
      }).response.mode = "MOCK" :=
  example_request_low_risk mockEnv (by decide)

/-- C9 counterexample: the substitution of placeholder vitals is NOT
visible in the response.  Two requests differing only in their vitals —
one omitted (hence substituted), one set to a value different from the
placeholder — produce identical responses: the response carries no vitals
information at all, so no "implied vitals" can be read off it. -/
theorem vitals_substitution_not_visible_in_response :
    ({ patient_id := "MH-002", age := 40, medications := ["aspirin"],
       allergies := [], vitals := none : PatientData } ≠
     { patient_id := "MH-002", age := 40, medications := ["aspirin"],
       allergies := [], vitals := some [("SpO2", 42)] : PatientData }) ∧
    (some [("SpO2", (42 : Int))] ≠ some placeholder_vitals) ∧
    (process_patient_data mockEnv
      { patient_id := "MH-002", age := 40, medications := ["aspirin"],
        allergies := [], vitals := none }).response =
    (process_patient_data mockEnv
      { patient_id := "MH-002", age := 40, medications := ["aspirin"],
        allergies := [], vitals := some [("SpO2", 42)] }).response :=
  ⟨by decide, by decide, by decide⟩

/-- C9 (amended): when `vitals` is omitted, the pipeline substitutes the
fixed placeholder `{SpO2: 98, heart_rate: 72}` into the patient record
before continuing, and that substituted record (vitals included) is the
one handed to the narrator; the response payload itself carries no vitals
field. -/
theorem vitals_placeholder_substituted (env : Env) (p : PatientData)
    (h : p.vitals = none) :
    (process_patient_data env p).patientFinal =
      { p with vitals := some placeholder_vitals } ∧
    (process_patient_data env p).patientFinal.vitals =
      some [("SpO2", 98), ("heart_rate", 72)] := by
  have hp : (process_patient_data env p).patientFinal =
      { p with vitals := some placeholder_vitals } := by
    simp only [process_patient_data]
    rw [if_pos h]
  exact ⟨hp, by rw [hp]; rfl⟩

/-- Witness for the amended C9 at a concrete vitals-less request. -/
theorem vitals_placeholder_substituted_witness :
    (process_patient_data mockEnv
      { patient_id := "MH-003", age := 33, medications := [],
        allergies := [], vitals := none }).patientFinal.vitals =
      some [("SpO2", 98), ("heart_rate", 72)] :=
  (vitals_placeholder_substituted mockEnv
    { patient_id := "MH-003", age := 33, medications := [],
      allergies := [], vitals := none } rfl).2

/-- C10: the `analyzed_medications` field of the response always equals the length of
the submitted medications list, whatever the environment (mode, search or
generation outcomes). -/
theorem analyzed_medications_counts_input (env : Env) (p : PatientData) :
    (process_patient_data env p).response.analyzed_medications =
      p.medications.length := by
  simp only [process_patient_data]
  split_ifs <;> rfl

end MedGuardian
